import Mathlib

/-!
Verification of the client-side theme resolution / persistence system
(`src/context/ThemeContext.tsx`) and the viewport reveal trigger
(`src/hooks/useScrollAnimation.ts` and its delayed variant) of the
openavii-website repository.

Theme values are modelled as `String`s, matching JavaScript runtime
semantics: the TypeScript annotations (`Theme`, `ResolvedTheme`) are
erased at runtime and the code reads a raw string out of `localStorage`
through an unchecked cast, so arbitrary strings can flow through
`resolveTheme`.  The OS colour-scheme query `matchMedia(prefers-color-scheme:
dark).matches` is modelled as a boolean `osPrefersDark` passed where the
code performs the query.
-/

/-- The fixed localStorage key used for the theme preference
(`THEME_STORAGE_KEY` in ThemeContext.tsx). -/
def THEME_STORAGE_KEY : String := "openavii-theme"

/-- `getSystemTheme()` from ThemeContext.tsx: returns "dark" when the OS
reports a dark colour-scheme preference, otherwise "light". -/
def getSystemTheme (osPrefersDark : Bool) : String :=
  if osPrefersDark then "dark" else "light"

/-- `resolveTheme(theme)` from ThemeContext.tsx: "system" resolves through
the OS query at call time; any other string is returned unchanged (the
source performs no validation beyond the equality test with "system"). -/
def resolveTheme (osPrefersDark : Bool) (theme : String) : String :=
  if theme = "system" then getSystemTheme osPrefersDark else theme

/-- JavaScript `storedTheme || defaultValue` where `storedTheme` is
`string | null`: `null` and the empty string are falsy, every other string
is truthy. -/
def jsOr (s : Option String) (d : String) : String :=
  match s with
  | none => d
  | some v => if v = "" then d else v

/-- State of the ThemeProvider component together with the two pieces of
ambient state it owns: the localStorage entry under `THEME_STORAGE_KEY`
(`storage`, `none` when absent) and the theme class currently applied to
`document.documentElement` (`docClass`). -/
structure ThemeState where
  theme : String
  resolvedTheme : String
  initialized : Bool
  storage : Option String
  docClass : String
  deriving DecidableEq, Repr

/-- React initial state of the provider: `useState('light')` for both
`theme` and `resolvedTheme`, `initialized = false`; the storage content is
whatever the environment persisted before this mount; no theme class has
been applied yet. -/
def initialThemeState (storage : Option String) : ThemeState :=
  { theme := "light", resolvedTheme := "light", initialized := false,
    storage := storage, docClass := "" }

/-- `applyThemeToDocument(resolvedTheme)`: removes the previous light/dark
class from the document root and adds `resolved`. -/
def applyThemeToDocument (st : ThemeState) (resolved : String) : ThemeState :=
  { st with docClass := resolved }

/-- The ThemeProvider mount effect (lines 93-108 of ThemeContext.tsx), in
the environment where localStorage is available and does not throw.  Reads
the stored value, defaults a falsy read to "light" via `||`, resolves, and
commits all state updates (the `queueMicrotask` batching is invisible to
the resulting state).  `mounted` is true on the client and is omitted. -/
def initEffect (osPrefersDark : Bool) (st : ThemeState) : ThemeState :=
  if st.initialized then st
  else
    let storedTheme := st.storage
    let initialTheme := jsOr storedTheme "light"
    let resolved := resolveTheme osPrefersDark initialTheme
    applyThemeToDocument
      { st with theme := initialTheme, resolvedTheme := resolved, initialized := true }
      resolved

/-- `setTheme(newTheme)` (lines 129-143 of ThemeContext.tsx), storage
available: resolves the argument, updates both state fields, overwrites
the localStorage entry with the raw argument, and applies the resolved
class to the document root.  The transient `theme-transition` class lives
for a fixed 300 ms and leaves no trace in this state; it is not modelled. -/
def setTheme (osPrefersDark : Bool) (st : ThemeState) (newTheme : String) : ThemeState :=
  let resolved := resolveTheme osPrefersDark newTheme
  applyThemeToDocument
    { st with theme := newTheme, resolvedTheme := resolved, storage := some newTheme }
    resolved

/-- `toggleTheme()` (lines 148-153 of ThemeContext.tsx): recomputes the
current applied value from `theme`, flips dark to light and anything else
to dark, and calls `setTheme` with the flipped concrete value. -/
def toggleTheme (osPrefersDark : Bool) (st : ThemeState) : ThemeState :=
  let currentResolved := resolveTheme osPrefersDark st.theme
  let newTheme := if currentResolved = "dark" then "light" else "dark"
  setTheme osPrefersDark st newTheme

/-- `handleChange` of the system-theme listener effect (lines 111-124 of
ThemeContext.tsx), fired by a `prefers-color-scheme` change notification
carrying the new OS preference: recomputes the system theme and re-applies
it, touching neither `theme` nor the localStorage entry.  The listener is
only attached while `theme = "system"`. -/
def handleSystemChange (osPrefersDark : Bool) (st : ThemeState) : ThemeState :=
  let newResolved := getSystemTheme osPrefersDark
  applyThemeToDocument { st with resolvedTheme := newResolved } newResolved

/-- The read-only snapshot `{ mode, appliedMode }` exposed to consumers:
the pair of the stored preference and the applied resolved theme. -/
def getSnapshot (st : ThemeState) : String × String :=
  (st.theme, st.resolvedTheme)

/-- The context value handed to consumers (functions omitted: only the
data fields matter for the accessor-guard claim). -/
structure ThemeContextValue where
  theme : String
  resolvedTheme : String
  deriving DecidableEq, Repr

/-- `useTheme()` (lines 173-181 of ThemeContext.tsx): `useContext` yields
`undefined` (here `none`) outside a provider, in which case the hook
throws; inside a provider it returns the context value. -/
def useTheme (context : Option ThemeContextValue) : Except String ThemeContextValue :=
  match context with
  | none => Except.error "useTheme must be used within a ThemeProvider"
  | some v => Except.ok v

/-! ### Exception-aware model of the storage accesses

The source wraps no storage access in try/catch, so a throwing
localStorage (storage disabled in a restrictive environment) propagates
out of the mount effect and out of `setTheme`.  `storageThrows` says
whether any access to `localStorage` throws (e.g. a `SecurityError`). -/

/-- `localStorage.getItem(THEME_STORAGE_KEY)` in an environment where
storage access may throw. -/
def getItemE (storageThrows : Bool) (storage : Option String) : Except String (Option String) :=
  if storageThrows then Except.error "SecurityError" else Except.ok storage

/-- `localStorage.setItem(THEME_STORAGE_KEY, v)` in an environment where
storage access may throw. -/
def setItemE (storageThrows : Bool) (v : String) : Except String (Option String) :=
  if storageThrows then Except.error "SecurityError" else Except.ok (some v)

/-- The ThemeProvider mount effect with fallible storage.  The source has
no try/catch around `localStorage.getItem`, so a throw aborts the effect
before any state update. -/
def initEffectE (osPrefersDark storageThrows : Bool) (st : ThemeState) :
    Except String ThemeState :=
  if st.initialized then Except.ok st
  else
    match getItemE storageThrows st.storage with
    | Except.error e => Except.error e
    | Except.ok storedTheme =>
      let initialTheme := jsOr storedTheme "light"
      let resolved := resolveTheme osPrefersDark initialTheme
      Except.ok (applyThemeToDocument
        { st with theme := initialTheme, resolvedTheme := resolved, initialized := true }
        resolved)

/-- `setTheme` with fallible storage: `localStorage.setItem` is called
with no try/catch, so a throw propagates to the caller and the document
class is never applied. -/
def setThemeE (osPrefersDark storageThrows : Bool) (st : ThemeState) (newTheme : String) :
    Except String ThemeState :=
  let resolved := resolveTheme osPrefersDark newTheme
  let st1 := { st with theme := newTheme, resolvedTheme := resolved }
  match setItemE storageThrows newTheme with
  | Except.error e => Except.error e
  | Except.ok stored => Except.ok (applyThemeToDocument { st1 with storage := stored } resolved)

/-! ### Well-formedness predicates for the documented data model -/

/-- The persisted entry is absent, empty (falsy, treated as absent), or
one of the three documented preference tokens. -/
def wellFormedStored (s : Option String) : Prop :=
  s = none ∨ s = some "" ∨ s = some "light" ∨ s = some "dark" ∨ s = some "system"

/-- A preference value of the documented `Theme` type. -/
def concreteOrSystem (t : String) : Prop :=
  t = "light" ∨ t = "dark" ∨ t = "system"

/-- An applied value of the documented `ResolvedTheme` type. -/
def isLightOrDark (s : String) : Prop :=
  s = "light" ∨ s = "dark"

instance (s : Option String) : Decidable (wellFormedStored s) := by
  unfold wellFormedStored; infer_instance

instance (t : String) : Decidable (concreteOrSystem t) := by
  unfold concreteOrSystem; infer_instance

instance (s : String) : Decidable (isLightOrDark s) := by
  unfold isLightOrDark; infer_instance

/-! ### C4, C6, C10 -/

/-- C4: the mount effect reads the persisted preference; an absent value
defaults to light without consulting the OS preference (the result is
"light" for every value of `osPrefersDark`); a persisted "dark" resolves
to applied dark, with the storage entry untouched (no `setTheme` call,
which would have rewritten it). -/
theorem C4_init_defaults (osPrefersDark : Bool) :
    (initEffect osPrefersDark (initialThemeState none)).theme = "light" ∧
    (initEffect osPrefersDark (initialThemeState none)).resolvedTheme = "light" ∧
    (initEffect osPrefersDark (initialThemeState (some "dark"))).theme = "dark" ∧
    (initEffect osPrefersDark (initialThemeState (some "dark"))).resolvedTheme = "dark" ∧
    (initEffect osPrefersDark (initialThemeState (some "dark"))).storage = some "dark" ∧
    (initEffect osPrefersDark (initialThemeState (some "dark"))).initialized = true := by
  cases osPrefersDark <;> decide

/-- C6: while the preference is system-following, an OS colour-scheme
change notification recomputes the applied mode to the new OS value and
changes neither the stored preference nor the persisted storage entry. -/
theorem C6_system_change (osPrefersDarkNew : Bool) (st : ThemeState)
    (_h : st.theme = "system") :
    (handleSystemChange osPrefersDarkNew st).resolvedTheme = getSystemTheme osPrefersDarkNew ∧
    (handleSystemChange osPrefersDarkNew st).theme = st.theme ∧
    (handleSystemChange osPrefersDarkNew st).storage = st.storage := by
  refine ⟨rfl, rfl, rfl⟩

/-- Witness for C6 at a concrete system-following state. -/
theorem C6_system_change_witness :
    (setTheme false (initialThemeState none) "system").theme = "system" ∧
    ((handleSystemChange true (setTheme false (initialThemeState none) "system")).resolvedTheme
        = getSystemTheme true ∧
      (handleSystemChange true (setTheme false (initialThemeState none) "system")).theme
        = (setTheme false (initialThemeState none) "system").theme ∧
      (handleSystemChange true (setTheme false (initialThemeState none) "system")).storage
        = (setTheme false (initialThemeState none) "system").storage) :=
  ⟨by decide, C6_system_change true _ (by decide)⟩

/-- C10: calling `useTheme` outside a ThemeProvider throws the Error
"useTheme must be used within a ThemeProvider" instead of returning an
undefined or default value; inside a provider it returns the context value
and never throws. -/
theorem C10_useTheme_guard :
    useTheme none = Except.error "useTheme must be used within a ThemeProvider" ∧
    ∀ v : ThemeContextValue, useTheme (some v) = Except.ok v :=
  ⟨rfl, fun _ => rfl⟩

/-! ### C1: last setTheme call wins -/

/-- One `setTheme` call: the OS preference queried at call time paired
with the argument. -/
def setThemeCall (st : ThemeState) (call : Bool × String) : ThemeState :=
  setTheme call.1 st call.2

/-- Folding a non-empty call sequence leaves the resolution and the raw
argument of the last call in the state. -/
theorem C1_last_setTheme_wins (st : ThemeState) (calls : List (Bool × String))
    (lastCall : Bool × String) (h : calls.getLast? = some lastCall) :
    (getSnapshot (calls.foldl setThemeCall st)).2
      = resolveTheme lastCall.1 lastCall.2 ∧
    (calls.foldl setThemeCall st).storage = some lastCall.2 := by
  induction calls generalizing st with
  | nil => simp at h
  | cons p ps ih =>
    cases ps with
    | nil =>
      simp only [List.getLast?_singleton, Option.some.injEq] at h
      subst h
      simp [setThemeCall, setTheme, applyThemeToDocument, getSnapshot]
    | cons q qs =>
      rw [List.getLast?_cons_cons] at h
      simpa using ih (setThemeCall st p) h

/-- Witness for C1: two calls, the second system-following under a dark
OS preference. -/
theorem C1_last_setTheme_wins_witness :
    ([((false : Bool), "dark"), (true, "system")]).getLast? = some ((true : Bool), "system") ∧
    ((getSnapshot (([((false : Bool), "dark"), (true, "system")]).foldl setThemeCall
          (initialThemeState none))).2
        = resolveTheme true "system" ∧
      (([((false : Bool), "dark"), (true, "system")]).foldl setThemeCall
          (initialThemeState none)).storage = some "system") :=
  ⟨by decide, C1_last_setTheme_wins (initialThemeState none) _ (true, "system") (by decide)⟩

/-! ### C5: toggle involution -/

/-- C5: from any state of the documented data model (preference one of
the three tokens, applied mode consistent under the current unchanged OS
preference), two successive toggles restore the applied mode, and one
toggle always stores a concrete "light" or "dark" preference — the
argument handed to `setTheme` is never "system". -/
theorem C5_toggle_involution (osPrefersDark : Bool) (st : ThemeState)
    (hwf : concreteOrSystem st.theme)
    (hcons : st.resolvedTheme = resolveTheme osPrefersDark st.theme) :
    (toggleTheme osPrefersDark (toggleTheme osPrefersDark st)).resolvedTheme
      = st.resolvedTheme ∧
    ((toggleTheme osPrefersDark st).theme = "light" ∨
      (toggleTheme osPrefersDark st).theme = "dark") := by
  rcases hwf with h | h | h <;> cases osPrefersDark <;>
    simp [toggleTheme, setTheme, resolveTheme, getSystemTheme, applyThemeToDocument, h, hcons]

/-- Witness for C5: a system-following state under a light OS
preference. -/
theorem C5_toggle_involution_witness :
    concreteOrSystem (setTheme false (initialThemeState none) "system").theme ∧
    (setTheme false (initialThemeState none) "system").resolvedTheme
      = resolveTheme false (setTheme false (initialThemeState none) "system").theme ∧
    ((toggleTheme false (toggleTheme false
        (setTheme false (initialThemeState none) "system"))).resolvedTheme
      = (setTheme false (initialThemeState none) "system").resolvedTheme ∧
     ((toggleTheme false (setTheme false (initialThemeState none) "system")).theme = "light" ∨
      (toggleTheme false (setTheme false (initialThemeState none) "system")).theme = "dark")) :=
  ⟨by decide, by decide, C5_toggle_involution false _ (by decide) (by decide)⟩

/-! ### C2: storage failures -/

/-- C2 counterexample: with a throwing localStorage neither the mount
effect nor `setTheme` completes — both propagate the storage exception,
because the source wraps no storage access in try/catch.  The claim as
stated (both "complete, behaving as if no persisted value exists") is
therefore false in this environment. -/
theorem C2_counterexample :
    initEffectE false true (initialThemeState none) = Except.error "SecurityError" ∧
    setThemeE false true (initialThemeState none) "dark" = Except.error "SecurityError" :=
  ⟨rfl, rfl⟩

/-- C2 amended: when storage access throws, the mount effect and
`setTheme` propagate the exception (the resolver crashes rather than
degrading); only when storage is readable does the effect complete, and
an absent persisted value then falls back to the in-memory default
light. -/
theorem C2_amended (osPrefersDark : Bool) (st : ThemeState) (v : String)
    (h : st.initialized = false) :
    initEffectE osPrefersDark true st = Except.error "SecurityError" ∧
    setThemeE osPrefersDark true st v = Except.error "SecurityError" ∧
    initEffectE osPrefersDark false st = Except.ok (initEffect osPrefersDark st) ∧
    (initEffect osPrefersDark (initialThemeState none)).resolvedTheme = "light" := by
  refine ⟨?_, ?_, ?_, ?_⟩
  · simp [initEffectE, getItemE, h]
  · simp [setThemeE, setItemE]
  · simp [initEffectE, initEffect, getItemE, h]
  · simp [initEffect, initialThemeState, jsOr, resolveTheme, getSystemTheme,
      applyThemeToDocument]

/-- Witness for C2 amended at a fresh mount. -/
theorem C2_amended_witness :
    (initialThemeState none).initialized = false ∧
    (initEffectE false true (initialThemeState none) = Except.error "SecurityError" ∧
     setThemeE false true (initialThemeState none) "dark" = Except.error "SecurityError" ∧
     initEffectE false false (initialThemeState none)
       = Except.ok (initEffect false (initialThemeState none)) ∧
     (initEffect false (initialThemeState none)).resolvedTheme = "light") :=
  ⟨rfl, C2_amended false (initialThemeState none) "dark" rfl⟩

/-! ### C9: the applied-mode invariant and the unchecked cast -/

/-- C9 counterexample: localStorage is a shared string store, and the
mount effect casts its content to `Theme` without validation
(`as Theme | null`).  Persisted content "purple" flows through
`resolveTheme` unchanged and becomes the applied mode, so the invariant
"appliedMode is always light or dark, for any persisted storage content"
is false. -/
theorem C9_counterexample :
    (initEffect false (initialThemeState (some "purple"))).resolvedTheme = "purple" ∧
    ¬ isLightOrDark (initEffect false (initialThemeState (some "purple"))).resolvedTheme := by
  decide

/-- C9 amended: the applied mode is one of exactly light and dark
provided the persisted content is well-formed (absent, empty, or one of
the three preference tokens) and `setTheme` receives a value of the
`Theme` type; each recomputation path — mount effect, `setTheme`,
`toggleTheme`, OS-change handler — then yields light or dark. -/
theorem C9_amended (osPrefersDark : Bool) (s : Option String) (st : ThemeState) (t : String)
    (hs : wellFormedStored s) (ht : concreteOrSystem t) :
    isLightOrDark (initEffect osPrefersDark (initialThemeState s)).resolvedTheme ∧
    isLightOrDark (setTheme osPrefersDark st t).resolvedTheme ∧
    isLightOrDark (toggleTheme osPrefersDark st).resolvedTheme ∧
    isLightOrDark (handleSystemChange osPrefersDark st).resolvedTheme := by
  refine ⟨?_, ?_, ?_, ?_⟩
  · rcases hs with rfl | rfl | rfl | rfl | rfl <;> cases osPrefersDark <;> decide
  · rcases ht with rfl | rfl | rfl <;> cases osPrefersDark <;>
      simp [setTheme, applyThemeToDocument, resolveTheme, getSystemTheme, isLightOrDark]
  · simp only [toggleTheme]
    split <;>
      simp [setTheme, applyThemeToDocument, resolveTheme, getSystemTheme, isLightOrDark]
  · cases osPrefersDark <;>
      simp [handleSystemChange, applyThemeToDocument, getSystemTheme, isLightOrDark]

/-- Witness for C9 amended with well-formed persisted content "system"
and a dark OS preference. -/
theorem C9_amended_witness :
    wellFormedStored (some "system") ∧ concreteOrSystem "dark" ∧
    (isLightOrDark (initEffect true (initialThemeState (some "system"))).resolvedTheme ∧
     isLightOrDark (setTheme true (initialThemeState none) "dark").resolvedTheme ∧
     isLightOrDark (toggleTheme true (initialThemeState none)).resolvedTheme ∧
     isLightOrDark (handleSystemChange true (initialThemeState none)).resolvedTheme) :=
  ⟨by decide, by decide,
    C9_amended true (some "system") (initialThemeState none) "dark" (by decide) (by decide)⟩

/-! ## Viewport reveal trigger

Model of `useScrollAnimation` (delayed variant in the repository, with
`triggerOnce` and `delay` options; the non-delayed file is the same
machine restricted to `delay = 0`).  A "qualifying" intersection report
is one the IntersectionObserver delivers with `isIntersecting = true`
under the configured threshold/rootMargin, so threshold and rootMargin
are absorbed into the event and only the options driving the dynamics
are kept.  Time is in milliseconds; a pending `setTimeout` is recorded
as its absolute deadline. -/

/-- The options of `useScrollAnimation` that drive the state machine. -/
structure ScrollConfig where
  triggerOnce : Bool
  delay : Nat
  deriving DecidableEq, Repr

/-- Per-element observation state: the React `isVisible` state, the
pending timeout (`timeoutRef`, as an absolute deadline), and whether the
observer is still attached to the element (`unobserve` clears it). -/
structure ScrollState where
  isVisible : Bool
  timeoutDeadline : Option Nat
  observed : Bool
  deriving DecidableEq, Repr

/-- State at mount, before the effect runs: `useState(false)`, no timer,
no observer attached. -/
def mountScrollState : ScrollState :=
  { isVisible := false, timeoutDeadline := none, observed := true }

/-- The IntersectionObserver callback of the delayed variant, invoked at
time `now` with the entry's `isIntersecting` flag: it first clears any
pending timeout; a qualifying entry with `delay > 0` arms a timer for
`now + delay`, with `delay = 0` it sets visible immediately (detaching
when `triggerOnce`); an exit resets visible only when `triggerOnce` is
false. -/
def observerCallback (cfg : ScrollConfig) (now : Nat) (isIntersecting : Bool)
    (st : ScrollState) : ScrollState :=
  let st := { st with timeoutDeadline := none }
  if isIntersecting then
    if cfg.delay > 0 then
      { st with timeoutDeadline := some (now + cfg.delay) }
    else
      { st with isVisible := true, observed := st.observed && !cfg.triggerOnce }
  else
    if !cfg.triggerOnce then { st with isVisible := false } else st

/-- The body of the armed `setTimeout` when it elapses: sets visible and
detaches the observer when `triggerOnce`; the timeout is no longer
pending afterwards. -/
def timerElapsed (cfg : ScrollConfig) (st : ScrollState) : ScrollState :=
  { st with
      timeoutDeadline := none,
      isVisible := true,
      observed := st.observed && !cfg.triggerOnce }

/-- The effect cleanup on unmount: `clearTimeout` of any pending timer
and `unobserve`. -/
def scrollCleanup (st : ScrollState) : ScrollState :=
  { st with timeoutDeadline := none, observed := false }

/-- Events delivered to one observed element: an intersection report at
a time, the browser firing the armed timer at its deadline, unmount. -/
inductive ScrollEvent where
  | report (isIntersecting : Bool) (time : Nat)
  | fire (time : Nat)
  | unmount
  deriving DecidableEq, Repr

/-- One step of the per-element machine.  Reports are delivered only
while the observer is attached; a `fire` acts only when it is the armed
timer reaching its deadline (a cleared or absent timer never fires —
`clearTimeout` semantics). -/
def scrollStep (cfg : ScrollConfig) (st : ScrollState) (e : ScrollEvent) : ScrollState :=
  match e with
  | ScrollEvent.report isIntersecting t =>
      if st.observed then observerCallback cfg t isIntersecting st else st
  | ScrollEvent.fire t =>
      if st.timeoutDeadline = some t then timerElapsed cfg st else st
  | ScrollEvent.unmount => scrollCleanup st

/-- Run a sequence of events. -/
def runScroll (cfg : ScrollConfig) (st : ScrollState) (events : List ScrollEvent) : ScrollState :=
  events.foldl (scrollStep cfg) st

/-- The single callback of the non-delayed `useScrollAnimation.ts` file:
a qualifying entry sets visible (and detaches when `triggerOnce`); an
exit resets visible only when `triggerOnce` is false. -/
def observerCallbackSimple (triggerOnce : Bool) (isIntersecting : Bool)
    (st : ScrollState) : ScrollState :=
  if isIntersecting then
    { st with isVisible := true, observed := st.observed && !triggerOnce }
  else
    if !triggerOnce then { st with isVisible := false } else st

/-- The mount effect of the hook: with no element attached to the ref the
effect returns early and nothing is observed; otherwise
`new IntersectionObserver(...)` throws a ReferenceError when the
primitive is missing from the environment, and only when it exists does
the element become observed. -/
def useScrollAnimationEffect (hasIntersectionObserver hasElement : Bool) :
    Except String ScrollState :=
  if hasElement = false then
    Except.ok { mountScrollState with observed := false }
  else if hasIntersectionObserver = false then
    Except.error "IntersectionObserver is not defined"
  else
    Except.ok mountScrollState

/-- Is the event a qualifying entry report? -/
def isEntryEvent : ScrollEvent → Bool
  | ScrollEvent.report true _ => true
  | _ => false

/-! ### C3: observer-unsupported environment -/

/-- C3 counterexample: with `IntersectionObserver` unavailable and an
element attached, the effect throws instead of completing, and the
visible signal keeps its initial value false — the element is not
treated as always visible, so the claim as stated is false. -/
theorem C3_counterexample :
    useScrollAnimationEffect false true = Except.error "IntersectionObserver is not defined" ∧
    mountScrollState.isVisible = false := by
  exact ⟨rfl, rfl⟩

/-- C3 amended: the hook performs no availability check; when the
primitive is missing and an element is attached, the mount effect throws
a ReferenceError and the visible signal stays false (the element is
treated as never visible, content stays hidden); with the primitive
present the element is observed, and with no element the effect is a
no-op. -/
theorem C3_amended :
    useScrollAnimationEffect false true = Except.error "IntersectionObserver is not defined" ∧
    mountScrollState.isVisible = false ∧
    useScrollAnimationEffect true true = Except.ok mountScrollState ∧
    (∀ hasObserver : Bool, useScrollAnimationEffect hasObserver false
      = Except.ok { mountScrollState with observed := false }) := by
  refine ⟨rfl, rfl, rfl, ?_⟩
  intro hasObserver
  cases hasObserver <;> rfl

/-! ### C7: triggerOnce latches visible -/

/-- Once visible, every single step with `triggerOnce = true` keeps
visible. -/
theorem scrollStep_preserves_visible (cfg : ScrollConfig) (h : cfg.triggerOnce = true)
    (st : ScrollState) (hv : st.isVisible = true) (e : ScrollEvent) :
    (scrollStep cfg st e).isVisible = true := by
  cases e with
  | report isIntersecting t =>
    simp only [scrollStep]
    split
    · cases isIntersecting with
      | true =>
        simp only [observerCallback]
        split
        · split <;> simp [hv]
        · simp at *
      | false =>
        simp [observerCallback, h, hv]
    · exact hv
  | fire t =>
    simp only [scrollStep]
    split
    · simp [timerElapsed]
    · exact hv
  | unmount => simp [scrollStep, scrollCleanup, hv]

/-- C7: with `triggerOnce = true`, from any state in which the visible
signal is true, every further event sequence — exits, re-entries, timer
firings, unmount — leaves it true; and the same holds for a single
invocation of the non-delayed file's callback. -/
theorem C7_triggerOnce_latches (cfg : ScrollConfig) (h : cfg.triggerOnce = true)
    (st : ScrollState) (hv : st.isVisible = true) (events : List ScrollEvent) :
    (runScroll cfg st events).isVisible = true ∧
    (∀ (isIntersecting : Bool) (s : ScrollState), s.isVisible = true →
      (observerCallbackSimple true isIntersecting s).isVisible = true) := by
  constructor
  · induction events generalizing st with
    | nil => exact hv
    | cons e es ih =>
      exact ih (scrollStep cfg st e) (scrollStep_preserves_visible cfg h st hv e)
  · intro isIntersecting s hs
    cases isIntersecting <;> simp [observerCallbackSimple, hs]

/-- Witness for C7: an element made visible by an entry, then an exit,
a re-entry arming a timer, its firing, and another exit. -/
theorem C7_triggerOnce_latches_witness :
    ({ triggerOnce := true, delay := 200 } : ScrollConfig).triggerOnce = true ∧
    (scrollStep { triggerOnce := true, delay := 0 } mountScrollState
        (ScrollEvent.report true 0)).isVisible = true ∧
    ((runScroll { triggerOnce := true, delay := 200 }
        (scrollStep { triggerOnce := true, delay := 0 } mountScrollState
          (ScrollEvent.report true 0))
        [ScrollEvent.report false 100, ScrollEvent.report true 150,
         ScrollEvent.fire 350, ScrollEvent.report false 400]).isVisible = true ∧
      (∀ (isIntersecting : Bool) (s : ScrollState), s.isVisible = true →
        (observerCallbackSimple true isIntersecting s).isVisible = true)) :=
  ⟨rfl, by decide,
    C7_triggerOnce_latches { triggerOnce := true, delay := 200 } rfl _ (by decide) _⟩

/-! ### C8: a pre-deadline exit cancels the armed timer -/

/-- Any event sequence free of qualifying entries preserves "not visible
and no pending timer". -/
theorem runScroll_no_entry_stays_invisible (cfg : ScrollConfig) (st : ScrollState)
    (h1 : st.isVisible = false) (h2 : st.timeoutDeadline = none)
    (events : List ScrollEvent) (he : ∀ e ∈ events, isEntryEvent e = false) :
    (runScroll cfg st events).isVisible = false ∧
    (runScroll cfg st events).timeoutDeadline = none := by
  induction events generalizing st with
  | nil => exact ⟨h1, h2⟩
  | cons e es ih =>
    have he0 : isEntryEvent e = false := he e (List.mem_cons_self e es)
    have hes : ∀ x ∈ es, isEntryEvent x = false := fun x hx => he x (List.mem_cons_of_mem e hx)
    have hstep : (scrollStep cfg st e).isVisible = false ∧
        (scrollStep cfg st e).timeoutDeadline = none := by
      cases e with
      | report isIntersecting t =>
        cases isIntersecting with
        | true => simp [isEntryEvent] at he0
        | false =>
          simp only [scrollStep]
          split
          · cases hb : cfg.triggerOnce <;> simp [observerCallback, hb, h1]
          · exact ⟨h1, h2⟩
      | fire t =>
        simp [scrollStep, h1, h2]
      | unmount => simp [scrollStep, scrollCleanup, h1]
    exact ih (scrollStep cfg st e) hstep.1 hstep.2 hes

/-- C8: with `delay = 300`, a qualifying entry at 0 ms arms the timer for
300 ms and leaves visible false; the timer cannot elapse at any earlier
time; the exit report at 150 ms cancels the pending timer and visible
stays false; and no later activation happens across any continuation
free of new qualifying entries. -/
theorem C8_exit_cancels_pending_timer (triggerOnce : Bool) (later : List ScrollEvent)
    (hlater : ∀ e ∈ later, isEntryEvent e = false) :
    (runScroll { triggerOnce := triggerOnce, delay := 300 } mountScrollState
        [ScrollEvent.report true 0]).timeoutDeadline = some 300 ∧
    (runScroll { triggerOnce := triggerOnce, delay := 300 } mountScrollState
        [ScrollEvent.report true 0]).isVisible = false ∧
    (∀ t : Nat, t < 300 →
      scrollStep { triggerOnce := triggerOnce, delay := 300 }
          (runScroll { triggerOnce := triggerOnce, delay := 300 } mountScrollState
            [ScrollEvent.report true 0]) (ScrollEvent.fire t)
        = runScroll { triggerOnce := triggerOnce, delay := 300 } mountScrollState
            [ScrollEvent.report true 0]) ∧
    (runScroll { triggerOnce := triggerOnce, delay := 300 } mountScrollState
        [ScrollEvent.report true 0, ScrollEvent.report false 150]).isVisible = false ∧
    (runScroll { triggerOnce := triggerOnce, delay := 300 } mountScrollState
        [ScrollEvent.report true 0, ScrollEvent.report false 150]).timeoutDeadline = none ∧
    (runScroll { triggerOnce := triggerOnce, delay := 300 }
        (runScroll { triggerOnce := triggerOnce, delay := 300 } mountScrollState
          [ScrollEvent.report true 0, ScrollEvent.report false 150])
        later).isVisible = false := by
  have harm : (runScroll { triggerOnce := triggerOnce, delay := 300 } mountScrollState
      [ScrollEvent.report true 0]).timeoutDeadline = some 300 := by
    cases triggerOnce <;> decide
  have hvis : (runScroll { triggerOnce := triggerOnce, delay := 300 } mountScrollState
      [ScrollEvent.report true 0]).isVisible = false := by
    cases triggerOnce <;> decide
  have hexit1 : (runScroll { triggerOnce := triggerOnce, delay := 300 } mountScrollState
      [ScrollEvent.report true 0, ScrollEvent.report false 150]).isVisible = false := by
    cases triggerOnce <;> decide
  have hexit2 : (runScroll { triggerOnce := triggerOnce, delay := 300 } mountScrollState
      [ScrollEvent.report true 0, ScrollEvent.report false 150]).timeoutDeadline = none := by
    cases triggerOnce <;> decide
  refine ⟨harm, hvis, ?_, hexit1, hexit2, ?_⟩
  · intro t ht
    have hne : ¬ ((300 : Nat) = t) := by omega
    simp [scrollStep, harm, hne]
  · exact (runScroll_no_entry_stays_invisible _ _ hexit1 hexit2 later hlater).1

/-- Witness for C8: the continuation holds a stray timer firing at the
old 300 ms deadline, a further exit and the unmount. -/
theorem C8_exit_cancels_pending_timer_witness :
    (∀ e ∈ [ScrollEvent.fire 300, ScrollEvent.report false 500, ScrollEvent.unmount],
      isEntryEvent e = false) ∧
    ((runScroll { triggerOnce := false, delay := 300 } mountScrollState
        [ScrollEvent.report true 0]).timeoutDeadline = some 300 ∧
     (runScroll { triggerOnce := false, delay := 300 } mountScrollState
        [ScrollEvent.report true 0]).isVisible = false ∧
     (∀ t : Nat, t < 300 →
       scrollStep { triggerOnce := false, delay := 300 }
           (runScroll { triggerOnce := false, delay := 300 } mountScrollState
             [ScrollEvent.report true 0]) (ScrollEvent.fire t)
         = runScroll { triggerOnce := false, delay := 300 } mountScrollState
             [ScrollEvent.report true 0]) ∧
     (runScroll { triggerOnce := false, delay := 300 } mountScrollState
        [ScrollEvent.report true 0, ScrollEvent.report false 150]).isVisible = false ∧
     (runScroll { triggerOnce := false, delay := 300 } mountScrollState
        [ScrollEvent.report true 0, ScrollEvent.report false 150]).timeoutDeadline = none ∧
     (runScroll { triggerOnce := false, delay := 300 }
        (runScroll { triggerOnce := false, delay := 300 } mountScrollState
          [ScrollEvent.report true 0, ScrollEvent.report false 150])
        [ScrollEvent.fire 300, ScrollEvent.report false 500, ScrollEvent.unmount]).isVisible
       = false) :=
  ⟨by decide, C8_exit_cancels_pending_timer false
    [ScrollEvent.fire 300, ScrollEvent.report false 500, ScrollEvent.unmount] (by decide)⟩
